import Mathlib

/-!
Shallow embedding of the devex-scorecard-generator reconciliation core:
the scoring configuration service, the AI-response normalizer, the issue
manager (reconciler), the webhook event classification, and the
configuration loader.  Each definition is translated from the TypeScript
source; theorems settle the specification claims C1..C10.
-/

/-! ### JavaScript value model

JSON-reachable JavaScript values, plus `undefined` (absent object fields).
JavaScript numbers are modelled as exact rationals extended with the
non-finite values `NaN`, `Infinity` and `-Infinity`; the operations the
source performs on them (comparison, `Math.min`/`Math.max`, `parseInt`,
`isNaN`) are discrete and exactly representable. -/

inductive JSNum where
  | nan : JSNum
  | inf : JSNum
  | negInf : JSNum
  | fin : ℚ → JSNum
deriving DecidableEq, Repr

inductive JSValue where
  | undefined : JSValue
  | null : JSValue
  | bool : Bool → JSValue
  | num : JSNum → JSValue
  | str : String → JSValue
  | arr : List JSValue → JSValue
  | obj : List (String × JSValue) → JSValue
deriving Repr

/-- Substring membership test on the underlying character lists,
modelling JavaScript `String.prototype.includes`. -/
def charsStartWith : List Char → List Char → Bool
  | _, [] => true
  | [], _ :: _ => false
  | a :: as, b :: bs => a = b && charsStartWith as bs

def charsContain (sub : List Char) : List Char → Bool
  | [] => sub.isEmpty
  | c :: rest => charsStartWith (c :: rest) sub || charsContain sub rest

def jsIncludes (s sub : String) : Bool :=
  charsContain sub.data s.data

/-- `String(n)` for a JavaScript number.  For finite non-integers JavaScript
prints a decimal expansion; the model prints the reduced fraction, which
only affects `parseInt` coercion of numbers reaching `String` through an
array, a path no claim depends on. -/
def jsNumToString : JSNum → String
  | .nan => "NaN"
  | .inf => "Infinity"
  | .negInf => "-Infinity"
  | .fin q => if q.den = 1 then toString q.num else toString q

/-- `String(v)` for a JavaScript value (`Array.prototype.toString` joins
elements with commas, rendering `null`/`undefined` elements as empty). -/
def jsValToString : JSValue → String
  | .undefined => "undefined"
  | .null => "null"
  | .bool true => "true"
  | .bool false => "false"
  | .num n => jsNumToString n
  | .str s => s
  | .obj _ => "[object Object]"
  | .arr xs => String.intercalate "," (xs.attach.map (fun v =>
      match h : v.1 with
      | .null => ""
      | .undefined => ""
      | w => jsValToString w))
decreasing_by
  have hm : w ∈ xs := h ▸ v.2
  have := List.sizeOf_lt_of_mem hm
  simp only [JSValue.arr.sizeOf_spec]
  omega

/-- `parseInt(s, 10)`: skip leading whitespace, optional sign, then the
longest decimal-digit run; `NaN` when no digit follows. -/
def digitsToNat (ds : List Char) : Nat :=
  ds.foldl (fun acc c => acc * 10 + (c.toNat - '0'.toNat)) 0

def parseIntJS (s : String) : JSNum :=
  let cs := s.data.dropWhile Char.isWhitespace
  match cs with
  | '-' :: rest =>
      let ds := rest.takeWhile Char.isDigit
      if ds.isEmpty then .nan else .fin (-(digitsToNat ds : ℚ))
  | '+' :: rest =>
      let ds := rest.takeWhile Char.isDigit
      if ds.isEmpty then .nan else .fin (digitsToNat ds : ℚ)
  | _ =>
      let ds := cs.takeWhile Char.isDigit
      if ds.isEmpty then .nan else .fin (digitsToNat ds : ℚ)

/-- Property read `fields[name]` on a parsed JSON object: `undefined` when
the key is absent; the last duplicate key wins, as in `JSON.parse`. -/
def getProp (fields : List (String × JSValue)) (name : String) : JSValue :=
  match fields.reverse.find? (fun p => p.1 = name) with
  | some p => p.2
  | none => .undefined

/-! ### Scoring configuration (`src/services/scoring-config.ts`) -/

structure ScoreRange where
  min : Int
  max : Int
  description : String
deriving DecidableEq, Repr

structure ScoreRanges where
  excellent : ScoreRange
  veryGood : ScoreRange
  good : ScoreRange
  moderate : ScoreRange
  belowAverage : ScoreRange
  poor : ScoreRange
  veryPoor : ScoreRange
deriving DecidableEq, Repr

structure ScoringConfig where
  greenThreshold : Int
  yellowThreshold : Int
  redThreshold : Int
  defaultScore : Int
  ranges : ScoreRanges
deriving DecidableEq, Repr

def DEFAULT_SCORING_CONFIG : ScoringConfig :=
  { greenThreshold := 70
    yellowThreshold := 50
    redThreshold := 0
    defaultScore := 50
    ranges :=
      { excellent := ⟨90, 100, "Excellent developer experience, comprehensive setup, very well maintained"⟩
        veryGood := ⟨80, 89, "Very good developer experience, minor improvements possible"⟩
        good := ⟨70, 79, "Good developer experience, some areas for enhancement"⟩
        moderate := ⟨60, 69, "Moderate developer experience, several improvement opportunities"⟩
        belowAverage := ⟨50, 59, "Below average developer experience, needs attention"⟩
        poor := ⟨40, 49, "Poor developer experience, significant issues present"⟩
        veryPoor := ⟨0, 39, "Very poor developer experience, major overhaul needed"⟩ } }

/-- `Partial<ScoringConfig>` as accepted by the service constructor. -/
structure ScoringConfigOverride where
  greenThreshold : Option Int := none
  yellowThreshold : Option Int := none
  redThreshold : Option Int := none
  defaultScore : Option Int := none
  ranges : Option ScoreRanges := none
deriving DecidableEq, Repr

/-- `mergeConfig(defaultConfig, customConfig)` (the `??` defaulting; the
spread of a full `ranges` object replaces every band). -/
def mergeConfig (defaultConfig : ScoringConfig) :
    Option ScoringConfigOverride → ScoringConfig
  | none => defaultConfig
  | some c =>
      { greenThreshold := c.greenThreshold.getD defaultConfig.greenThreshold
        yellowThreshold := c.yellowThreshold.getD defaultConfig.yellowThreshold
        redThreshold := c.redThreshold.getD defaultConfig.redThreshold
        defaultScore := c.defaultScore.getD defaultConfig.defaultScore
        ranges := c.ranges.getD defaultConfig.ranges }

/-- The per-band check `range.min < 0 || range.max > 100 || range.min > range.max`. -/
def rangeInvalid (r : ScoreRange) : Prop :=
  r.min < 0 ∨ r.max > 100 ∨ r.min > r.max

instance (r : ScoreRange) : Decidable (rangeInvalid r) :=
  inferInstanceAs (Decidable (r.min < 0 ∨ r.max > 100 ∨ r.min > r.max))

/-- `validateConfig()`: the sequence of checks, first failure wins
(`Object.entries` iterates the seven bands in declaration order). -/
def validateConfig (c : ScoringConfig) : Except String Unit :=
  if c.greenThreshold ≤ c.yellowThreshold then
    .error "Green threshold must be greater than yellow threshold"
  else if c.yellowThreshold ≤ c.redThreshold then
    .error "Yellow threshold must be greater than red threshold"
  else if c.defaultScore < 0 ∨ c.defaultScore > 100 then
    .error "Default score must be between 0 and 100"
  else if rangeInvalid c.ranges.excellent then
    .error "Invalid range for excellent"
  else if rangeInvalid c.ranges.veryGood then
    .error "Invalid range for veryGood"
  else if rangeInvalid c.ranges.good then
    .error "Invalid range for good"
  else if rangeInvalid c.ranges.moderate then
    .error "Invalid range for moderate"
  else if rangeInvalid c.ranges.belowAverage then
    .error "Invalid range for belowAverage"
  else if rangeInvalid c.ranges.poor then
    .error "Invalid range for poor"
  else if rangeInvalid c.ranges.veryPoor then
    .error "Invalid range for veryPoor"
  else
    .ok ()

structure ScoringConfigService where
  config : ScoringConfig
deriving DecidableEq, Repr

/-- `new ScoringConfigService(customConfig)`: merge then validate; a
validation failure is a thrown construction error. -/
def mkScoringConfigService (customConfig : Option ScoringConfigOverride) :
    Except String ScoringConfigService :=
  match validateConfig (mergeConfig DEFAULT_SCORING_CONFIG customConfig) with
  | .ok _ => .ok ⟨mergeConfig DEFAULT_SCORING_CONFIG customConfig⟩
  | .error e => .error e

inductive Color where
  | red : Color
  | yellow : Color
  | green : Color
deriving DecidableEq, Repr

/-- `getScoreColor(score)`. -/
def getScoreColor (svc : ScoringConfigService) (score : ℚ) : Color :=
  if score ≥ (svc.config.greenThreshold : ℚ) then .green
  else if score ≥ (svc.config.yellowThreshold : ℚ) then .yellow
  else .red

/-- `getDefaultScore()`. -/
def getDefaultScore (svc : ScoringConfigService) : Int :=
  svc.config.defaultScore

def defaultScoringConfigService : ScoringConfigService :=
  ⟨DEFAULT_SCORING_CONFIG⟩

/-! ### AI response normalizer (`src/services/ai-response-parser.ts`) -/

structure ScorecardResult where
  score : ℚ
  color : Color
  analysis : String
  recommendations : List String
deriving DecidableEq, Repr

/-- The coercion step of `validateScore`:
`typeof score === 'number' ? score : parseInt(String(score), 10)`. -/
def coerceScore : JSValue → JSNum
  | .num n => n
  | v => parseIntJS (jsValToString v)

/-- `validateScore(score)`: coerce, substitute the default on `NaN`
(`isNaN`), then `Math.max(0, Math.min(100, numScore))` — on the infinite
values the min/max pair yields 100 and 0 respectively. -/
def validateScore (svc : ScoringConfigService) (score : JSValue) : ℚ :=
  match coerceScore score with
  | .nan => (getDefaultScore svc : ℚ)
  | .inf => 100
  | .negInf => 0
  | .fin q => max 0 (min 100 q)

/-- `determineColor(score, providedColor)`: a provided color is used only
when it is exactly one of the three strings (strict-equality `includes`);
otherwise the color is derived from the configured thresholds. -/
def determineColor (svc : ScoringConfigService) (score : ℚ) :
    JSValue → Color
  | .str "red" => .red
  | .str "yellow" => .yellow
  | .str "green" => .green
  | _ => getScoreColor svc score

/-- `validateAnalysis(analysis)`. -/
def validateAnalysis : JSValue → String
  | .str s =>
      if s.trim.length > 0 then s.trim
      else "No detailed analysis provided by the AI service."
  | _ => "No detailed analysis provided by the AI service."

/-- `validateRecommendations(recommendations)`. -/
def validateRecommendations : JSValue → List String
  | .arr xs =>
      let valid := xs.filterMap (fun v =>
        match v with
        | .str s => if s.trim.length > 0 then some s.trim else none
        | _ => none)
      if valid.length > 0 then valid
      else ["Review repository documentation and structure"]
  | _ => ["Review repository documentation and structure"]

/-- Property access `parsed.x`: `undefined` on primitives, a lookup on
objects, and a thrown `TypeError` (`none`) on `null`/`undefined`. -/
def readProp : JSValue → String → Option JSValue
  | .null, _ => none
  | .undefined, _ => none
  | .obj fields, name => some (getProp fields name)
  | _, _ => some .undefined

/-- `validateAndNormalizeScorecardResult(parsed)`; `none` models the
`TypeError` thrown by property access on `null` (caught by the caller). -/
def validateAndNormalizeScorecardResult (svc : ScoringConfigService)
    (parsed : JSValue) : Option ScorecardResult :=
  match readProp parsed "score", readProp parsed "color",
        readProp parsed "analysis", readProp parsed "recommendations" with
  | some ps, some pc, some pa, some pr =>
      let score := validateScore svc ps
      some
        { score := score
          color := determineColor svc score pc
          analysis := validateAnalysis pa
          recommendations := validateRecommendations pr }
  | _, _, _, _ => none

/-- The greedy regex scan `response.match(/\x7b[\s\S]*\x7d/)`: the span
from the first opening brace to the last closing brace, when the latter
comes after the former. -/
def jsonSpan (s : String) : Option String :=
  let cs := s.data
  match cs.findIdx? (· = '{'), cs.reverse.findIdx? (· = '}') with
  | some i, some jr =>
      let j := cs.length - 1 - jr
      if i < j then some ⟨(cs.drop i).take (j - i + 1)⟩ else none
  | _, _ => none

/-- `createFallbackResult(response)`; `response || '...'` substitutes the
placeholder exactly when the raw text is the empty string. -/
def createFallbackResult (svc : ScoringConfigService) (response : String) :
    ScorecardResult :=
  let d : ℚ := (getDefaultScore svc : ℚ)
  { score := d
    color := getScoreColor svc d
    analysis :=
      if response = "" then "AI analysis failed to provide a structured response."
      else response
    recommendations := ["Review repository documentation and structure"] }

/-- `parseAIResponse(response)`.  `JSON.parse` is a language builtin and
is modelled as an oracle `jsonParse`; `none` models a thrown parse error.
Anything thrown inside the `try` block lands in the fallback branch. -/
def parseAIResponse (svc : ScoringConfigService)
    (jsonParse : String → Option JSValue) (response : String) :
    ScorecardResult :=
  match jsonSpan response with
  | some span =>
      match jsonParse span with
      | some parsed =>
          match validateAndNormalizeScorecardResult svc parsed with
          | some r => r
          | none => createFallbackResult svc response
      | none => createFallbackResult svc response
  | none => createFallbackResult svc response

/-- A `JSON.parse` oracle that always throws. -/
def noParse : String → Option JSValue := fun _ => none

/-- Claim C4 stated in the spec's own words (the refinement target):
coerce, substitute `defaultScore()` whenever the coerced value is **not a
finite number**, and clamp to [0,100] after coercion. -/
def specValidateScoreClaimed (svc : ScoringConfigService)
    (score : JSValue) : ℚ :=
  match coerceScore score with
  | .fin q => max 0 (min 100 q)
  | _ => max 0 (min 100 (getDefaultScore svc : ℚ))

/-! ### Issue manager (`IssueManagerService`, AI variant)

The issue tracker is the abstract collaborator of the spec: its state for
the repository under reconciliation is the list of issues, the next
tracker-assigned number, and the appended comments.  The spec scopes out
the literal Markdown templates, so the static template and the rerun
comment are fixed abstract constants, and the AI templates are function
parameters; only their identities matter to the claims. -/

structure Issue where
  number : Nat
  title : String
  body : String
  state : String
  labels : List String
deriving DecidableEq, Repr

structure TrackerState where
  issues : List Issue
  nextNumber : Nat
  comments : List (Nat × String)
deriving DecidableEq, Repr

/-- The environment of one reconciliation call: whether an Octokit client
is available, whether the tracker lookup API call fails, and the outcome
of the assessment generator when one is configured (`none` = no AI
service configured; `some (.error e)` = `generateScorecard` throws). -/
structure ReconcilerEnv where
  octokitAvailable : Bool
  listFails : Bool
  agent : Option (Except String ScorecardResult)

def DEVEX_SCORECARD_TEMPLATE : String := "<static scorecard template>"

def generateScorecardRerunComment : String := "<static rerun comment>"

structure Templates where
  aiTemplate : ScorecardResult → String
  aiRerunComment : ScorecardResult → String

/-- The label filter applied by `issues.listForRepo({ state: 'all',
labels: 'devex-scorecard' })`. -/
def hasScorecardLabel (i : Issue) : Bool :=
  i.labels.contains "devex-scorecard"

/-- The title predicate of the lookup (`issue.title.includes(...)`). -/
def titleMatches (i : Issue) : Bool :=
  jsIncludes i.title "DevEx Scorecard" ||
    jsIncludes i.title "🎯 DevEx Scorecard"

/-- `findExistingScorecardIssue`: list issues carrying the
`devex-scorecard` label across all states, pick the first whose title
matches; any thrown tracker error is caught and returned as `null`. -/
def findExistingScorecardIssue (env : ReconcilerEnv) (st : TrackerState) :
    Option Issue :=
  if env.listFails then none
  else (st.issues.filter hasScorecardLabel).find? titleMatches

/-- The issue body computed by the create/update/rerun flows: start from
the static template; when the AI service is configured, try
`generateScorecard` and fall back to the static template on any thrown
error. -/
def scorecardBody (env : ReconcilerEnv) (t : Templates) : String :=
  match env.agent with
  | some (.ok r) => t.aiTemplate r
  | some (.error _) => DEVEX_SCORECARD_TEMPLATE
  | none => DEVEX_SCORECARD_TEMPLATE

/-- `createAIScorecardIssue`: create the issue with the discriminator
title and labels; the tracker assigns the next number and opens it. -/
def createAIScorecardIssue (env : ReconcilerEnv) (t : Templates)
    (st : TrackerState) : Issue × TrackerState :=
  let issue : Issue :=
    { number := st.nextNumber
      title := "🎯 DevEx Scorecard"
      body := scorecardBody env t
      state := "open"
      labels := ["devex-scorecard", "documentation"] }
  (issue, { st with issues := st.issues ++ [issue],
                    nextNumber := st.nextNumber + 1 })

/-- `updateAIScorecardIssue`: rewrite title, body and labels and (with
`reopenIfClosed`, which every caller leaves at its default `true`) force
the state to open; a write against a missing issue is a tracker error
that propagates. -/
def updateAIScorecardIssue (env : ReconcilerEnv) (t : Templates)
    (st : TrackerState) (issueNumber : Nat) (reopenIfClosed : Bool := true) :
    Except String (Issue × TrackerState) :=
  match st.issues.find? (fun i => i.number = issueNumber) with
  | none => .error "Issue update failed"
  | some found =>
      let upd : Issue :=
        { found with
            title := "🎯 DevEx Scorecard"
            body := scorecardBody env t
            labels := ["devex-scorecard", "documentation"]
            state := if reopenIfClosed then "open" else found.state }
      .ok (upd,
        { st with issues := (st.issues.map (fun i =>
            if i.number = issueNumber then
              { i with
                  title := "🎯 DevEx Scorecard"
                  body := scorecardBody env t
                  labels := ["devex-scorecard", "documentation"]
                  state := if reopenIfClosed then "open" else i.state }
            else i)) })

/-- `createOrUpdateScorecardIssue(repository, installationId, forceUpdate)`. -/
def createOrUpdateScorecardIssue (env : ReconcilerEnv) (t : Templates)
    (forceUpdate : Bool) (st : TrackerState) :
    Except String Issue × TrackerState :=
  if !env.octokitAvailable then
    (.error "Octokit instance not available", st)
  else
    match findExistingScorecardIssue env st with
    | some existing =>
        if forceUpdate || existing.state == "closed" then
          match updateAIScorecardIssue env t st existing.number with
          | .ok (i, st2) => (.ok i, st2)
          | .error e => (.error e, st)
        else
          (.ok existing, st)
    | none =>
        (.ok (createAIScorecardIssue env t st).1,
          (createAIScorecardIssue env t st).2)

/-- The rerun comment body: the AI rerun comment on generator success,
the static rerun comment when the generator is unconfigured or throws. -/
def rerunCommentBody (env : ReconcilerEnv) (t : Templates) : String :=
  match env.agent with
  | some (.ok r) => t.aiRerunComment r
  | some (.error _) => generateScorecardRerunComment
  | none => generateScorecardRerunComment

/-- `handleScorecardRerun(repository, issue, installationId)`: one
generator outcome feeds both the regenerated body and the rerun comment;
the issue update carries only `body`; then a comment is appended. -/
def handleScorecardRerun (env : ReconcilerEnv) (t : Templates)
    (st : TrackerState) (issueNumber : Nat) :
    Except String TrackerState :=
  if !env.octokitAvailable then .error "Octokit instance not available"
  else
    let body := scorecardBody env t
    let comment := rerunCommentBody env t
    match st.issues.find? (fun i => i.number = issueNumber) with
    | none => .error "Issue update failed"
    | some _ =>
        .ok { st with
          issues := st.issues.map
            (fun i => if i.number = issueNumber then { i with body := body }
              else i)
          comments := st.comments ++ [(issueNumber, comment)] }

/-- A tracked issue in the sense of the spec: discriminator label plus a
title matching the lookup predicate. -/
def isTrackedIssue (i : Issue) : Bool :=
  hasScorecardLabel i && titleMatches i

def countTracked (st : TrackerState) : Nat :=
  (st.issues.filter isTrackedIssue).length

/-! ### Webhook event classification
(`WebhookHandler.processWebhookEvent`, `handleIssueEditEvent`) -/

structure RepoPayload where
  name : String
  full_name : String
  ownerLogin : String
deriving DecidableEq, Repr

structure IssuePayload where
  number : Nat
  title : String
  body : String
deriving DecidableEq, Repr

structure InstallationPayload where
  id : Nat
deriving DecidableEq, Repr

structure WebhookPayload where
  action : Option String := none
  repository : Option RepoPayload := none
  issue : Option IssuePayload := none
  repositories_added : Option (List RepoPayload) := none
  installation : Option InstallationPayload := none
deriving DecidableEq, Repr

inductive WebhookOutcome where
  | issueEditRerun : RepoPayload → IssuePayload → Nat → WebhookOutcome
  | issueEditNoAction : WebhookOutcome
  | issueEditErrorMissingRepository : WebhookOutcome
  | issueEditErrorMissingInstallation : WebhookOutcome
  | repositoryEvent : RepoPayload → Nat → WebhookOutcome
  | installationAdded : List RepoPayload → Nat → WebhookOutcome
  | ignored : WebhookOutcome
deriving DecidableEq, Repr

/-- `handleIssueEditEvent`: only a body containing the checked re-run
control acts; missing repository or falsy `installation?.id` throw. -/
def handleIssueEditEvent (repository : Option RepoPayload)
    (issue : IssuePayload) (installation : Option InstallationPayload) :
    WebhookOutcome :=
  if jsIncludes issue.body "- [x] **Re-run scorecard**" then
    match repository with
    | none => .issueEditErrorMissingRepository
    | some repo =>
        match installation with
        | some inst =>
            if inst.id ≠ 0 then .issueEditRerun repo issue inst.id
            else .issueEditErrorMissingInstallation
        | none => .issueEditErrorMissingInstallation
  else .issueEditNoAction

/-- First guard of `processWebhookEvent`:
`issue && action === 'edited' && issue.title.includes('DevEx Scorecard')`. -/
def issueEditGuard (payload : WebhookPayload) : Option IssuePayload :=
  match payload.issue, payload.action with
  | some issue, some "edited" =>
      if jsIncludes issue.title "DevEx Scorecard" then some issue else none
  | _, _ => none

/-- Second guard: `repository && action && ['created','edited']
.includes(action) && installation && githubEvent === 'repository'`. -/
def repoEventGuard (payload : WebhookPayload) (githubEvent : String) :
    Option (RepoPayload × Nat) :=
  match payload.repository, payload.action, payload.installation with
  | some repo, some act, some inst =>
      if (act == "created" || act == "edited") && githubEvent == "repository"
      then some (repo, inst.id) else none
  | _, _, _ => none

/-- Third guard: `action === 'added' && repositories_added &&
repositories_added.length > 0 && installation`. -/
def installationAddedGuard (payload : WebhookPayload) :
    Option (List RepoPayload × Nat) :=
  match payload.action, payload.repositories_added, payload.installation with
  | some "added", some repos, some inst =>
      if repos.length > 0 then some (repos, inst.id) else none
  | _, _, _ => none

/-- `processWebhookEvent`: guards evaluated in order, each taken branch
returns. -/
def processWebhookEvent (payload : WebhookPayload) (githubEvent : String) :
    WebhookOutcome :=
  match issueEditGuard payload with
  | some issue =>
      handleIssueEditEvent payload.repository issue payload.installation
  | none =>
      match repoEventGuard payload githubEvent with
      | some (repo, instId) => .repositoryEvent repo instId
      | none =>
          match installationAddedGuard payload with
          | some (repos, instId) => .installationAdded repos instId
          | none => .ignored

def isIssueEditOutcome : WebhookOutcome → Bool
  | .issueEditRerun _ _ _ => true
  | .issueEditNoAction => true
  | .issueEditErrorMissingRepository => true
  | .issueEditErrorMissingInstallation => true
  | _ => false

/-! ### Configuration loading (`src/config/index.ts`,
`WebhookVerifierService.validateProductionConfig`) -/

structure ProcessEnv where
  NODE_ENV : Option String := none
  GITHUB_APP_ID : Option String := none
  GITHUB_PRIVATE_KEY_PATH : Option String := none
  WEBHOOK_SECRET : Option String := none
  PORT : Option String := none
  HOME : Option String := none
deriving Repr

/-- JavaScript falsiness of an environment variable (`undefined` or `""`). -/
def envFalsy : Option String → Bool
  | none => true
  | some s => s == ""

/-- JavaScript `value || fallbackString` on an environment variable. -/
def orDefault (v : Option String) (d : String) : String :=
  match v with
  | some s => if s = "" then d else s
  | none => d

structure AppConfig where
  port : JSNum
  nodeEnv : String
  githubAppId : String
  githubPrivateKeyPath : String
  webhookSecret : String
  homeDirectory : String
deriving DecidableEq, Repr

/-- `getConfig()` (the Azure block only adds optional fields no claim
touches and is omitted). -/
def getConfig (env : ProcessEnv) : Except String AppConfig :=
  let missingVars :=
    (if envFalsy env.GITHUB_APP_ID then ["GITHUB_APP_ID"] else []) ++
      (if envFalsy env.GITHUB_PRIVATE_KEY_PATH then ["GITHUB_PRIVATE_KEY_PATH"]
       else [])
  if missingVars.length > 0 && env.NODE_ENV ≠ some "test" then
    .error ("Missing required environment variables: " ++
      String.intercalate ", " missingVars)
  else
    .ok
      { port := parseIntJS (orDefault env.PORT "3000")
        nodeEnv := orDefault env.NODE_ENV "development"
        githubAppId := orDefault env.GITHUB_APP_ID ""
        githubPrivateKeyPath := orDefault env.GITHUB_PRIVATE_KEY_PATH ""
        webhookSecret := orDefault env.WEBHOOK_SECRET "test-secret-for-development"
        homeDirectory := orDefault env.HOME "" }

/-- `isWebhookSecretConfigured()`: `Boolean(config.webhookSecret)`. -/
def isWebhookSecretConfigured (cfg : AppConfig) : Bool :=
  cfg.webhookSecret ≠ ""

/-- `validateProductionConfig()`: the thrown error, or `none`. -/
def validateProductionConfig (cfg : AppConfig) : Option String :=
  if !isWebhookSecretConfigured cfg && cfg.nodeEnv == "production" then
    some "WEBHOOK_SECRET environment variable is not set"
  else none

/-! ### Helper lemmas -/

/-- Any violation of the validation conditions, in the claim's terms:
threshold ordering broken, default score out of [0,100], or a bad band. -/
def configViolation (c : ScoringConfig) : Prop :=
  c.greenThreshold ≤ c.yellowThreshold ∨ c.yellowThreshold ≤ c.redThreshold ∨
  c.defaultScore < 0 ∨ 100 < c.defaultScore ∨
  rangeInvalid c.ranges.excellent ∨ rangeInvalid c.ranges.veryGood ∨
  rangeInvalid c.ranges.good ∨ rangeInvalid c.ranges.moderate ∨
  rangeInvalid c.ranges.belowAverage ∨ rangeInvalid c.ranges.poor ∨
  rangeInvalid c.ranges.veryPoor

instance (c : ScoringConfig) : Decidable (configViolation c) :=
  inferInstanceAs (Decidable (_ ∨ _ ∨ _ ∨ _ ∨ rangeInvalid _ ∨ rangeInvalid _ ∨
    rangeInvalid _ ∨ rangeInvalid _ ∨ rangeInvalid _ ∨ rangeInvalid _ ∨
    rangeInvalid _))

set_option maxHeartbeats 1600000 in
lemma validateConfig_ok_iff (c : ScoringConfig) :
    validateConfig c = .ok () ↔ ¬ configViolation c := by
  unfold validateConfig configViolation
  split_ifs with h1 h2 h3 h4 h5 h6 h7 h8 h9 h10 <;>
    simp only [reduceCtorEq, eq_self_iff_true, false_iff, true_iff] <;>
    tauto

lemma mkScoringConfigService_ok (custom : Option ScoringConfigOverride)
    (svc : ScoringConfigService)
    (h : mkScoringConfigService custom = .ok svc) :
    svc.config = mergeConfig DEFAULT_SCORING_CONFIG custom ∧
      ¬ configViolation svc.config := by
  unfold mkScoringConfigService at h
  rcases hv : validateConfig (mergeConfig DEFAULT_SCORING_CONFIG custom) with e | u
  · rw [hv] at h
    simp at h
  · rw [hv] at h
    injection h with h2
    subst h2
    refine ⟨rfl, ?_⟩
    rw [← validateConfig_ok_iff]
    cases u
    exact hv

lemma defaultScore_bounds (custom : Option ScoringConfigOverride)
    (svc : ScoringConfigService)
    (h : mkScoringConfigService custom = .ok svc) :
    0 ≤ svc.config.defaultScore ∧ svc.config.defaultScore ≤ 100 := by
  have h2 := (mkScoringConfigService_ok custom svc h).2
  unfold configViolation at h2
  push_neg at h2
  omega


/-! ### Claims C9, C10 -/

/-- C9: for every scoring configuration, construction fails eagerly —
never silently clamping — whenever the threshold ordering
`greenThreshold > yellowThreshold > redThreshold` is violated, the default
score is outside [0,100], or any band has `min > max` or falls outside
[0,100]; a successful construction preserves the merged configuration
exactly and satisfies all the invariants. -/
theorem claim_C9 (custom : Option ScoringConfigOverride) :
    (configViolation (mergeConfig DEFAULT_SCORING_CONFIG custom) →
      (mkScoringConfigService custom).isOk = false) ∧
    (∀ svc, mkScoringConfigService custom = .ok svc →
      svc.config = mergeConfig DEFAULT_SCORING_CONFIG custom ∧
        ¬ configViolation svc.config) := by
  constructor
  · intro hv
    rcases he : validateConfig (mergeConfig DEFAULT_SCORING_CONFIG custom)
      with e | u
    · simp only [mkScoringConfigService, he]
      rfl
    · exfalso
      cases u
      exact (validateConfig_ok_iff _).mp he hv
  · intro svc h
    exact mkScoringConfigService_ok custom svc h

def scenarioFOverride : ScoringConfigOverride :=
  { greenThreshold := some 50, yellowThreshold := some 70 }

/-- C9 witness: Scenario F — `greenThreshold 50`, `yellowThreshold 70`
violates the ordering, so construction fails. -/
theorem claim_C9_witness :
    configViolation (mergeConfig DEFAULT_SCORING_CONFIG (some scenarioFOverride)) ∧
    (mkScoringConfigService (some scenarioFOverride)).isOk = false :=
  ⟨by decide, (claim_C9 (some scenarioFOverride)).1 (by decide)⟩

def prodEnvNoSecret : ProcessEnv :=
  { NODE_ENV := some "production"
    GITHUB_APP_ID := some "12345"
    GITHUB_PRIVATE_KEY_PATH := some "/secrets/github-key.pem"
    WEBHOOK_SECRET := none
    PORT := none
    HOME := none }

/-- C10 (evaluating the code at the failing input): in a production
context with `WEBHOOK_SECRET` unset, `getConfig` succeeds and silently
substitutes the default secret `test-secret-for-development`, so
`validateProductionConfig` raises no error at all — contradicting the
claim that a fatal configuration error is raised. -/
theorem claim_C10_code_eval :
    (getConfig prodEnvNoSecret).toOption.map
        (fun cfg => (cfg.nodeEnv, cfg.webhookSecret, validateProductionConfig cfg)) =
      some ("production", "test-secret-for-development", none) := by
  rfl

/-! ### Claim C4 -/

/-- C4 counterexample: at `score = Infinity` (reachable, e.g. the JSON
numeral `1e999` parses to `Infinity`) the code clamps to 100 instead of
substituting `defaultScore()` as the claim's "not a finite number" rule
requires. -/
theorem claim_C4_counterexample :
    validateScore defaultScoringConfigService (JSValue.num JSNum.inf) ≠
      specValidateScoreClaimed defaultScoringConfigService (JSValue.num JSNum.inf) := by
  decide

/-- C4 (amended): the score field is coerced (`parseInt(String(v), 10)`
when it is not a number), the default is substituted exactly when the
coerced value is `NaN`, and the clamp `Math.max(0, Math.min(100, n))` is
applied otherwise — sending `Infinity` to 100 and `-Infinity` to 0
rather than to the default. -/
theorem claim_C4_amended (svc : ScoringConfigService) (v : JSValue) :
    (coerceScore v = JSNum.nan → validateScore svc v = (getDefaultScore svc : ℚ)) ∧
    (coerceScore v = JSNum.inf → validateScore svc v = 100) ∧
    (coerceScore v = JSNum.negInf → validateScore svc v = 0) ∧
    (∀ q : ℚ, coerceScore v = JSNum.fin q →
      validateScore svc v = max 0 (min 100 q)) ∧
    (∀ s, v = JSValue.str s → coerceScore v = parseIntJS s) := by
  refine ⟨?_, ?_, ?_, ?_, ?_⟩
  · intro h
    simp [validateScore, h]
  · intro h
    simp [validateScore, h]
  · intro h
    simp [validateScore, h]
  · intro q h
    simp [validateScore, h]
  · intro s h
    subst h
    simp [coerceScore, jsValToString]

/-- C4 witness: the amended rule evaluated at `Infinity`. -/
theorem claim_C4_amended_witness :
    validateScore defaultScoringConfigService (JSValue.num JSNum.inf) = 100 :=
  (claim_C4_amended defaultScoringConfigService (JSValue.num JSNum.inf)).2.1 rfl

/-! ### Claim C3 -/

/-- C3 counterexample: on the empty input the fallback substitutes the
fixed placeholder (`response || '...'`), so the analysis is **not** the
raw input text verbatim. -/
theorem claim_C3_counterexample :
    (parseAIResponse defaultScoringConfigService noParse "").analysis =
        "AI analysis failed to provide a structured response." ∧
      (parseAIResponse defaultScoringConfigService noParse "").analysis ≠ "" :=
  ⟨rfl, by decide⟩

/-- C3 (amended): when no JSON object can be located or the located span
fails to parse, the result is the fallback: `score = defaultScore()`,
`color = colorOf(score)`, `recommendations = [fixed fallback]`, and
`analysis` is the raw input text when it is non-empty, and the fixed
placeholder sentence when the input is empty. -/
theorem claim_C3_amended (svc : ScoringConfigService)
    (jsonParse : String → Option JSValue) (response : String)
    (h : jsonSpan response = none ∨
      ∃ span, jsonSpan response = some span ∧ jsonParse span = none) :
    parseAIResponse svc jsonParse response = createFallbackResult svc response ∧
    createFallbackResult svc response =
      { score := (getDefaultScore svc : ℚ)
        color := getScoreColor svc (getDefaultScore svc : ℚ)
        analysis :=
          if response = "" then "AI analysis failed to provide a structured response."
          else response
        recommendations := ["Review repository documentation and structure"] } := by
  refine ⟨?_, rfl⟩
  rcases h with h | ⟨span, h1, h2⟩
  · simp [parseAIResponse, h]
  · simp [parseAIResponse, h1, h2]

/-- C3 witness: Scenario E — `"not json at all"` yields the fallback with
the raw text as analysis. -/
theorem claim_C3_witness :
    parseAIResponse defaultScoringConfigService noParse "not json at all" =
      { score := 50
        color := Color.yellow
        analysis := "not json at all"
        recommendations := ["Review repository documentation and structure"] } := by
  have h := claim_C3_amended defaultScoringConfigService noParse "not json at all"
    (Or.inl rfl)
  rw [h.1, h.2]
  decide

/-! ### Claim C5 -/

lemma isIssueEditOutcome_handleIssueEditEvent (r : Option RepoPayload)
    (i : IssuePayload) (inst : Option InstallationPayload) :
    isIssueEditOutcome (handleIssueEditEvent r i inst) = true := by
  unfold handleIssueEditEvent
  split
  · rcases r with _ | repo
    · rfl
    · rcases inst with _ | io
      · rfl
      · by_cases hio : io.id ≠ 0 <;> simp [hio, isIssueEditOutcome]
  · rfl

/-- C5: any payload carrying an issue whose title matches the
discriminator together with the `edited` action is routed to the
issue-edit path and returns there — it is never reinterpreted as a
repository event, even when a repository, an installation, and the
`repository` event type are present in the same payload. -/
theorem claim_C5 (payload : WebhookPayload) (githubEvent : String)
    (issue : IssuePayload)
    (hiss : payload.issue = some issue)
    (hact : payload.action = some "edited")
    (htitle : jsIncludes issue.title "DevEx Scorecard" = true) :
    processWebhookEvent payload githubEvent =
      handleIssueEditEvent payload.repository issue payload.installation ∧
    isIssueEditOutcome (processWebhookEvent payload githubEvent) = true := by
  have hguard : issueEditGuard payload = some issue := by
    unfold issueEditGuard
    rw [hiss, hact]
    simp [htitle]
  have hmain : processWebhookEvent payload githubEvent =
      handleIssueEditEvent payload.repository issue payload.installation := by
    unfold processWebhookEvent
    rw [hguard]
  exact ⟨hmain, by
    rw [hmain]
    exact isIssueEditOutcome_handleIssueEditEvent _ _ _⟩

def c5Issue : IssuePayload :=
  { number := 7
    title := "🎯 DevEx Scorecard"
    body := "- [x] **Re-run scorecard** - Check this box to trigger a fresh analysis" }

def c5Repo : RepoPayload :=
  { name := "widgets", full_name := "acme/widgets", ownerLogin := "acme" }

/-- A malformed payload that simultaneously carries the issue edit, a
repository, an installation and arrives under the `repository` event. -/
def c5Payload : WebhookPayload :=
  { action := some "edited"
    repository := some c5Repo
    issue := some c5Issue
    repositories_added := some [c5Repo]
    installation := some ⟨42⟩ }

/-- C5 witness: the malformed payload under event type `repository` still
takes the issue-edit path (here: the rerun branch). -/
theorem claim_C5_witness :
    processWebhookEvent c5Payload "repository" =
      handleIssueEditEvent c5Payload.repository c5Issue c5Payload.installation ∧
    isIssueEditOutcome (processWebhookEvent c5Payload "repository") = true :=
  claim_C5 c5Payload "repository" c5Issue rfl rfl (by decide)

/-! ### Claim C2 -/

lemma validateScore_bounds (svc : ScoringConfigService)
    (h0 : 0 ≤ svc.config.defaultScore) (h100 : svc.config.defaultScore ≤ 100)
    (v : JSValue) :
    0 ≤ validateScore svc v ∧ validateScore svc v ≤ 100 := by
  unfold validateScore getDefaultScore
  rcases coerceScore v with _ | _ | _ | q
  · show (0 : ℚ) ≤ (svc.config.defaultScore : ℚ) ∧
      (svc.config.defaultScore : ℚ) ≤ 100
    constructor
    · exact_mod_cast h0
    · exact_mod_cast h100
  · show (0 : ℚ) ≤ 100 ∧ (100 : ℚ) ≤ 100
    norm_num
  · show (0 : ℚ) ≤ 0 ∧ (0 : ℚ) ≤ 100
    norm_num
  · show (0 : ℚ) ≤ max 0 (min 100 q) ∧ max 0 (min 100 q) ≤ 100
    constructor
    · exact le_max_left 0 _
    · exact max_le (by norm_num) (min_le_left 100 q)

lemma validateRecommendations_ne_nil (v : JSValue) :
    validateRecommendations v ≠ [] := by
  unfold validateRecommendations
  rcases v with _ | _ | b | n | s | xs | fields <;> try simp
  split
  · next hlen => exact List.ne_nil_of_length_pos hlen
  · simp

lemma validateAndNormalize_bounds (svc : ScoringConfigService)
    (h0 : 0 ≤ svc.config.defaultScore) (h100 : svc.config.defaultScore ≤ 100)
    (parsed : JSValue) (r : ScorecardResult)
    (h : validateAndNormalizeScorecardResult svc parsed = some r) :
    0 ≤ r.score ∧ r.score ≤ 100 ∧ r.recommendations ≠ [] := by
  unfold validateAndNormalizeScorecardResult at h
  split at h
  · next ps pc pa pr hps hpc hpa hpr =>
      injection h with h2
      subst h2
      exact ⟨(validateScore_bounds svc h0 h100 ps).1,
        (validateScore_bounds svc h0 h100 ps).2,
        validateRecommendations_ne_nil pr⟩
  · cases h

lemma createFallbackResult_bounds (svc : ScoringConfigService)
    (h0 : 0 ≤ svc.config.defaultScore) (h100 : svc.config.defaultScore ≤ 100)
    (response : String) :
    0 ≤ (createFallbackResult svc response).score ∧
      (createFallbackResult svc response).score ≤ 100 ∧
      (createFallbackResult svc response).recommendations ≠ [] := by
  refine ⟨?_, ?_, ?_⟩
  · show (0 : ℚ) ≤ (svc.config.defaultScore : ℚ)
    exact_mod_cast h0
  · show (svc.config.defaultScore : ℚ) ≤ 100
    exact_mod_cast h100
  · show ["Review repository documentation and structure"] ≠ []
    simp

/-- C2: for every input string and every outcome of the `JSON.parse`
builtin (including a thrown error), the normalizer built from any
successfully constructed scoring configuration returns a result whose
score lies in [0,100] and whose recommendations list is non-empty; the
function is total, modelling "never throws". -/
theorem claim_C2 (custom : Option ScoringConfigOverride)
    (svc : ScoringConfigService)
    (h : mkScoringConfigService custom = .ok svc)
    (jsonParse : String → Option JSValue) (response : String) :
    0 ≤ (parseAIResponse svc jsonParse response).score ∧
      (parseAIResponse svc jsonParse response).score ≤ 100 ∧
      (parseAIResponse svc jsonParse response).recommendations ≠ [] := by
  obtain ⟨h0, h100⟩ := defaultScore_bounds custom svc h
  unfold parseAIResponse
  rcases hs : jsonSpan response with _ | span
  · simp only [hs]
    exact createFallbackResult_bounds svc h0 h100 response
  · simp only [hs]
    rcases hp : jsonParse span with _ | parsed
    · simp only [hp]
      exact createFallbackResult_bounds svc h0 h100 response
    · simp only [hp]
      rcases hn : validateAndNormalizeScorecardResult svc parsed with _ | r
      · simp only [hn]
        exact createFallbackResult_bounds svc h0 h100 response
      · simp only [hn]
        exact validateAndNormalize_bounds svc h0 h100 parsed r hn

/-- C2 witness: the default configuration, a throwing parse oracle and
the empty input. -/
theorem claim_C2_witness :
    0 ≤ (parseAIResponse defaultScoringConfigService noParse "").score ∧
      (parseAIResponse defaultScoringConfigService noParse "").score ≤ 100 ∧
      (parseAIResponse defaultScoringConfigService noParse "").recommendations ≠ [] :=
  claim_C2 none defaultScoringConfigService rfl noParse ""

/-! ### Claims C1, C8 (reconciler create/no-op paths) -/

lemma titleMatches_false_of_labeled (i : Issue)
    (hl : hasScorecardLabel i = true) (ht : isTrackedIssue i = false) :
    titleMatches i = false := by
  unfold isTrackedIssue at ht
  rw [hl] at ht
  simpa using ht

lemma findExisting_none_of_untracked (env : ReconcilerEnv) (st : TrackerState)
    (hlist : env.listFails = false)
    (hnone : ∀ i ∈ st.issues, isTrackedIssue i = false) :
    findExistingScorecardIssue env st = none := by
  unfold findExistingScorecardIssue
  rw [hlist]
  simp only [Bool.false_eq_true, if_false]
  rw [List.find?_eq_none]
  intro i hi
  have hm := List.mem_filter.mp hi
  have := titleMatches_false_of_labeled i hm.2 (hnone i hm.1)
  simp [this]

lemma isTrackedIssue_new (env : ReconcilerEnv) (t : Templates)
    (st : TrackerState) :
    isTrackedIssue (createAIScorecardIssue env t st).1 = true := by
  rfl

/-- C1: starting from a repository with no tracked issue, with the tracker
lookup healthy and `forceUpdate` false, the first create-or-update call
creates the issue; afterwards there is exactly one tracked issue, and the
second call is a no-op that returns the existing issue unchanged and
leaves the tracker state untouched. -/
theorem claim_C1 (env : ReconcilerEnv) (t : Templates) (st : TrackerState)
    (hok : env.octokitAvailable = true)
    (hlist : env.listFails = false)
    (hnone : ∀ i ∈ st.issues, isTrackedIssue i = false) :
    createOrUpdateScorecardIssue env t false st =
      (Except.ok (createAIScorecardIssue env t st).1,
        (createAIScorecardIssue env t st).2) ∧
    countTracked (createAIScorecardIssue env t st).2 = 1 ∧
    createOrUpdateScorecardIssue env t false
        (createAIScorecardIssue env t st).2 =
      (Except.ok (createAIScorecardIssue env t st).1,
        (createAIScorecardIssue env t st).2) := by
  have hfind1 := findExisting_none_of_untracked env st hlist hnone
  have hfilterNone : List.filter isTrackedIssue st.issues = [] := by
    rw [List.filter_eq_nil_iff]
    intro a ha
    simp [hnone a ha]
  have hsplit : (createAIScorecardIssue env t st).2.issues =
      st.issues ++ [(createAIScorecardIssue env t st).1] := rfl
  have hnewLabel : hasScorecardLabel (createAIScorecardIssue env t st).1 = true :=
    rfl
  have hnewTitle : titleMatches (createAIScorecardIssue env t st).1 = true :=
    rfl
  refine ⟨?_, ?_, ?_⟩
  · unfold createOrUpdateScorecardIssue
    simp [hok, hfind1]
  · unfold countTracked
    rw [hsplit, List.filter_append, hfilterNone, List.nil_append]
    simp [List.filter_cons, isTrackedIssue_new env t st]
  · have hOld : List.find? titleMatches
        (List.filter hasScorecardLabel st.issues) = none := by
      rw [List.find?_eq_none]
      intro i hi
      have hm := List.mem_filter.mp hi
      have := titleMatches_false_of_labeled i hm.2 (hnone i hm.1)
      simp [this]
    have hfind2 : findExistingScorecardIssue env
        (createAIScorecardIssue env t st).2 =
        some (createAIScorecardIssue env t st).1 := by
      unfold findExistingScorecardIssue
      rw [hlist]
      simp only [Bool.false_eq_true, if_false]
      rw [hsplit, List.filter_append, List.find?_append, hOld]
      simp only [Option.none_or]
      have hone : List.filter hasScorecardLabel
          [(createAIScorecardIssue env t st).1] =
          [(createAIScorecardIssue env t st).1] := by
        simp [List.filter_cons, hnewLabel]
      rw [hone]
      exact List.find?_cons_of_pos _ hnewTitle
    unfold createOrUpdateScorecardIssue
    rw [hfind2]
    have hstate : ((createAIScorecardIssue env t st).1.state == "closed") = false :=
      rfl
    simp [hok, hstate]

def tFixed : Templates :=
  ⟨fun _ => "<ai template body>", fun _ => "<ai rerun comment>"⟩

def env1 : ReconcilerEnv :=
  { octokitAvailable := true, listFails := false, agent := none }

def st0 : TrackerState := { issues := [], nextNumber := 1, comments := [] }

/-- C1 witness: the empty tracker, no generator configured. -/
theorem claim_C1_witness :
    createOrUpdateScorecardIssue env1 tFixed false st0 =
      (Except.ok (createAIScorecardIssue env1 tFixed st0).1,
        (createAIScorecardIssue env1 tFixed st0).2) ∧
    countTracked (createAIScorecardIssue env1 tFixed st0).2 = 1 ∧
    createOrUpdateScorecardIssue env1 tFixed false
        (createAIScorecardIssue env1 tFixed st0).2 =
      (Except.ok (createAIScorecardIssue env1 tFixed st0).1,
        (createAIScorecardIssue env1 tFixed st0).2) :=
  claim_C1 env1 tFixed st0 rfl rfl (by intro i hi; simp [st0] at hi)

/-- C8: when the tracker lookup fails, the failure is degraded to "no
existing issue found" and the reconciliation proceeds down the creation
path instead of aborting. -/
theorem claim_C8 (env : ReconcilerEnv) (t : Templates) (force : Bool)
    (st : TrackerState)
    (hok : env.octokitAvailable = true)
    (hfail : env.listFails = true) :
    findExistingScorecardIssue env st = none ∧
    createOrUpdateScorecardIssue env t force st =
      (Except.ok (createAIScorecardIssue env t st).1,
        (createAIScorecardIssue env t st).2) := by
  have hf : findExistingScorecardIssue env st = none := by
    unfold findExistingScorecardIssue
    simp [hfail]
  refine ⟨hf, ?_⟩
  unfold createOrUpdateScorecardIssue
  simp [hok, hf]

def env8 : ReconcilerEnv :=
  { octokitAvailable := true, listFails := true, agent := none }

def st7Issue : Issue :=
  { number := 5
    title := "🎯 DevEx Scorecard"
    body := "old body"
    state := "closed"
    labels := ["devex-scorecard"] }

def st7 : TrackerState :=
  { issues := [st7Issue]
    nextNumber := 6
    comments := [] }

/-- C8 witness: a failing lookup over a tracker that does hold a tracked
issue still routes to creation. -/
theorem claim_C8_witness :
    findExistingScorecardIssue env8 st7 = none ∧
    createOrUpdateScorecardIssue env8 tFixed false st7 =
      (Except.ok (createAIScorecardIssue env8 tFixed st7).1,
        (createAIScorecardIssue env8 tFixed st7).2) :=
  claim_C8 env8 tFixed false st7 rfl rfl

/-! ### Claim C7 (rerun frame property) -/

/-- The tracker-visible frame of an issue: everything except the body. -/
def issueFrame (i : Issue) : Nat × String × String × List String :=
  (i.number, i.title, i.state, i.labels)

/-- C7: a rerun on an existing issue (open or closed) rewrites only the
body — number, title, state and labels are untouched and the issue is not
forced open — and appends exactly one rerun comment. -/
theorem claim_C7 (env : ReconcilerEnv) (t : Templates) (st : TrackerState)
    (n : Nat)
    (hok : env.octokitAvailable = true)
    (hex : (st.issues.find? (fun i => i.number = n)).isSome = true) :
    handleScorecardRerun env t st n =
      .ok { st with
        issues := (st.issues.map (fun i =>
          if i.number = n then { i with body := scorecardBody env t } else i))
        comments := st.comments ++ [(n, rerunCommentBody env t)] } ∧
    ∀ st2, handleScorecardRerun env t st n = .ok st2 →
      st2.issues.map issueFrame = st.issues.map issueFrame ∧
      st2.comments = st.comments ++ [(n, rerunCommentBody env t)] ∧
      ∀ i ∈ st2.issues, i.number = n → i.body = scorecardBody env t := by
  obtain ⟨j, hj⟩ := Option.isSome_iff_exists.mp hex
  have hmain : handleScorecardRerun env t st n =
      .ok { st with
        issues := (st.issues.map (fun i =>
          if i.number = n then { i with body := scorecardBody env t } else i))
        comments := st.comments ++ [(n, rerunCommentBody env t)] } := by
    unfold handleScorecardRerun
    simp [hok, hj]
  refine ⟨hmain, ?_⟩
  intro st2 h2
  rw [hmain] at h2
  injection h2 with h2
  subst h2
  refine ⟨?_, rfl, ?_⟩
  · show (st.issues.map _).map issueFrame = st.issues.map issueFrame
    rw [List.map_map]
    apply List.map_congr_left
    intro i hi
    by_cases hni : i.number = n <;> simp [issueFrame, Function.comp, hni]
  · intro i hi hnum
    show i.body = scorecardBody env t
    obtain ⟨j2, hj2, hij⟩ := List.mem_map.mp hi
    by_cases hnj : j2.number = n
    · rw [← hij]
      simp [hnj]
    · exfalso
      rw [← hij] at hnum
      rw [if_neg hnj] at hnum
      exact hnj hnum

/-- C7 witness: a rerun on a closed tracked issue leaves it closed and
appends the rerun comment. -/
theorem claim_C7_witness :
    handleScorecardRerun env1 tFixed st7 5 =
      Except.ok
        { issues := [{ st7Issue with body := DEVEX_SCORECARD_TEMPLATE }]
          nextNumber := 6
          comments := [(5, generateScorecardRerunComment)] } :=
  (claim_C7 env1 tFixed st7 5 rfl rfl).1

/-! ### Claim C6 (generator failure degraded, corrected) -/

def env6 : ReconcilerEnv :=
  { octokitAvailable := true
    listFails := false
    agent := some (.error "No response from AI agent") }

def c6Issue : Issue :=
  { number := 1
    title := "🎯 DevEx Scorecard"
    body := DEVEX_SCORECARD_TEMPLATE
    state := "open"
    labels := ["devex-scorecard", "documentation"] }

/-- C6 counterexample: with the generator configured and failing on the
no-assessment-available path (`No response from AI agent`), the
reconciliation does **not** propagate the failure: it succeeds and writes
the issue with the static template body. -/
theorem claim_C6_counterexample :
    createOrUpdateScorecardIssue env6 tFixed false st0 =
      (Except.ok c6Issue,
        { issues := [c6Issue], nextNumber := 2, comments := [] }) := by
  rfl

lemma updateAI_isOk_of_mem (env : ReconcilerEnv) (t : Templates)
    (st : TrackerState) (num : Nat)
    (hmem : ∃ x ∈ st.issues, x.number = num) :
    (updateAIScorecardIssue env t st num).isOk = true := by
  have hs : (st.issues.find? (fun i => i.number = num)).isSome = true := by
    rw [List.find?_isSome]
    obtain ⟨x, hx, hnx⟩ := hmem
    exact ⟨x, hx, by simp [hnx]⟩
  obtain ⟨j, hj⟩ := Option.isSome_iff_exists.mp hs
  unfold updateAIScorecardIssue
  rw [hj]
  rfl

/-- C6 (amended): with the generator configured, **every** generator
failure — including absence of any usable response — is caught and
degraded to the fixed static-template body: the create, update and rerun
flows still write the issue (no 500-class failure is produced by the
generator), the written body is the static template, and the rerun
comment degrades to the static rerun comment. -/
theorem claim_C6_amended (env : ReconcilerEnv) (t : Templates)
    (st : TrackerState) (e : String)
    (hagent : env.agent = some (.error e))
    (hok : env.octokitAvailable = true) :
    (∀ force, (createOrUpdateScorecardIssue env t force st).1.isOk = true) ∧
    (createAIScorecardIssue env t st).1.body = DEVEX_SCORECARD_TEMPLATE ∧
    (∀ n i st2, updateAIScorecardIssue env t st n = .ok (i, st2) →
      i.body = DEVEX_SCORECARD_TEMPLATE) ∧
    (∀ n st2, handleScorecardRerun env t st n = .ok st2 →
      st2.comments = st.comments ++ [(n, generateScorecardRerunComment)] ∧
      ∀ i ∈ st2.issues, i.number = n → i.body = DEVEX_SCORECARD_TEMPLATE) := by
  have hbody : scorecardBody env t = DEVEX_SCORECARD_TEMPLATE := by
    simp [scorecardBody, hagent]
  have hcomment : rerunCommentBody env t = generateScorecardRerunComment := by
    simp [rerunCommentBody, hagent]
  refine ⟨?_, ?_, ?_, ?_⟩
  · intro force
    unfold createOrUpdateScorecardIssue
    rcases hfind : findExistingScorecardIssue env st with _ | ex
    · simp only [hok, Bool.not_true, Bool.false_eq_true, if_false, hfind]
      rfl
    · have hexmem : ex ∈ st.issues := by
        unfold findExistingScorecardIssue at hfind
        by_cases hl : env.listFails = true
        · simp [hl] at hfind
        · simp only [hl, Bool.false_eq_true, if_false] at hfind
          exact (List.mem_filter.mp (List.mem_of_find?_eq_some hfind)).1
      simp only [hok, Bool.not_true, Bool.false_eq_true, if_false, hfind]
      split
      · rcases hup : updateAIScorecardIssue env t st ex.number with e2 | pr
        · exfalso
          have hOk := updateAI_isOk_of_mem env t st ex.number ⟨ex, hexmem, rfl⟩
          rw [hup] at hOk
          exact Bool.noConfusion hOk
        · rcases pr with ⟨i2, st2⟩
          simp only [hup]
          rfl
      · rfl
  · simp [createAIScorecardIssue, hbody]
  · intro n i st2 h
    unfold updateAIScorecardIssue at h
    rcases hf : st.issues.find? (fun i => i.number = n) with _ | j
    · rw [hf] at h
      cases h
    · rw [hf] at h
      injection h with hpair
      injection hpair with h1 h2
      rw [← h1]
      exact hbody
  · intro n st2 h
    unfold handleScorecardRerun at h
    rcases hf : st.issues.find? (fun i => i.number = n) with _ | j
    · simp [hok, hf] at h
    · simp only [hok, Bool.not_true, Bool.false_eq_true, if_false, hf] at h
      injection h with h2
      subst h2
      refine ⟨by rw [hcomment], ?_⟩
      intro i hi hnum
      obtain ⟨j2, hj2, hij⟩ := List.mem_map.mp hi
      by_cases hnj : j2.number = n
      · rw [← hij]
        simp [hnj, hbody]
      · exfalso
        rw [← hij] at hnum
        rw [if_neg hnj] at hnum
        exact hnj hnum

/-- C6 witness: the amended rule evaluated with the generator failing on
the no-response path — the call succeeds and the created body is the
static template. -/
theorem claim_C6_amended_witness :
    (createOrUpdateScorecardIssue env6 tFixed false st0).1.isOk = true ∧
    (createAIScorecardIssue env6 tFixed st0).1.body = DEVEX_SCORECARD_TEMPLATE :=
  ⟨(claim_C6_amended env6 tFixed st0 "No response from AI agent" rfl rfl).1 false,
    (claim_C6_amended env6 tFixed st0 "No response from AI agent" rfl rfl).2.1⟩
